import Mathlib

/-!
# Verification of the Vesty outfit-swap pipeline

A shallow embedding of the core pipeline of the Vesty web application:
file validation (`src/lib/aws-s3.ts`), image-optimization metadata
(`src/lib/image-processing.ts`), the Convex record store
(`convex/swaps.ts`, `convex/users.ts`, `convex/images.ts`,
`convex/schema.ts`), the presigned-URL endpoint
(`src/app/api/images/presigned/route.ts`), the user-sync layer
(`src/lib/user-sync.ts`), the AI service (`src/services/ai-service.ts`)
and the swap orchestration endpoint (`src/app/api/swap/route.ts`).

External effects (Clerk auth, S3, the generative-AI HTTP API) are
abstracted as oracles recording the outcome of each call; the handlers
are embedded as pure functions of the request, the database state and
those oracles, additionally emitting a trace of the external calls they
perform, in order.
-/

namespace Vesty

/-- Classification tag of a stored image (`convex/schema.ts`, `images.type`). -/
inductive ImageType where
  | USER
  | OUTFIT
  | RESULT
deriving DecidableEq, Repr

/-- Status of a swap attempt (`convex/schema.ts`, `swaps.status`). -/
inductive SwapStatus where
  | PENDING
  | PROCESSING
  | COMPLETED
  | FAILED
deriving DecidableEq, Repr

/-- Allowed MIME types (`src/lib/aws-s3.ts`, `ALLOWED_FILE_TYPES`). -/
def ALLOWED_FILE_TYPES : List String :=
  ["image/jpeg", "image/jpg", "image/png", "image/webp"]

/-- Allowed filename extensions (`src/lib/aws-s3.ts`, `ALLOWED_EXTENSIONS`). -/
def ALLOWED_EXTENSIONS : List String := ["jpg", "jpeg", "png", "webp"]

/-- Maximum file size, 5 MiB (`src/lib/aws-s3.ts`, `MAX_FILE_SIZE`). -/
def MAX_FILE_SIZE : Nat := 5 * 1024 * 1024

/-- Minimum file size, 1 KiB (`src/lib/aws-s3.ts`, `MIN_FILE_SIZE`). -/
def MIN_FILE_SIZE : Nat := 1024

/-- An uploaded file as the route handlers see it: original name, declared
MIME type, byte size. -/
structure File where
  name : String
  type : String
  size : Nat
deriving DecidableEq, Repr

/-- Metadata returned by a successful validation (`FileValidationResult.metadata`). -/
structure FileMetadata where
  size : Nat
  type : String
  extension : String
deriving DecidableEq, Repr

/-- Result of `validateFile` (`src/lib/aws-s3.ts`, `FileValidationResult`). -/
structure FileValidationResult where
  valid : Bool
  error : Option String := none
  metadata : Option FileMetadata := none
deriving DecidableEq, Repr

/-- Lower-case a character list and pack it into a string
(JS `String.prototype.toLowerCase` on ASCII input). -/
def lowerString (cs : List Char) : String :=
  (cs.map Char.toLower).asString

/-- JS `name.split(".").pop()?.toLowerCase()`: the segment after the last
dot (the whole name when there is no dot), lower-cased. -/
def extOf (name : String) : String :=
  lowerString ((name.data.reverse.takeWhile (fun c => ¬ (c = '.'))).reverse)

def errTooLarge : String := "File size too large. Maximum size is 5MB"

def errTooSmall : String := "File size too small. Minimum size is 1KB"

def errBadType : String :=
  "File type not supported. Allowed types: image/jpeg, image/jpg, image/png, image/webp"

def errBadExt : String :=
  "File extension not supported. Allowed extensions: jpg, jpeg, png, webp"

/-- `validateFile` from `src/lib/aws-s3.ts` lines 69-110: size window,
MIME allow-list, extension allow-list, each with its own error message.
An empty extension is rejected (JS `!extension`). -/
def validateFile (file : File) : FileValidationResult :=
  if file.size > MAX_FILE_SIZE then
    { valid := false, error := some errTooLarge }
  else if file.size < MIN_FILE_SIZE then
    { valid := false, error := some errTooSmall }
  else if ¬ (file.type ∈ ALLOWED_FILE_TYPES) then
    { valid := false, error := some errBadType }
  else
    let extension := extOf file.name
    if extension = "" ∨ ¬ (extension ∈ ALLOWED_EXTENSIONS) then
      { valid := false, error := some errBadExt }
    else
      { valid := true
        metadata := some { size := file.size, type := file.type, extension := extension } }

/-- JS `Math.round` on rationals: round half toward positive infinity. -/
def jsRound (x : ℚ) : ℤ := ⌊x + 1 / 2⌋

/-- The `compressionRatio` metadata field computed by `optimizeImage`
(`src/lib/image-processing.ts` line 194):
`Math.round(((originalSize - processedSize) / originalSize) * 100)`. -/
def compressionRatio (originalSize processedSize : Nat) : ℤ :=
  jsRound ((((originalSize : ℚ) - (processedSize : ℚ)) / (originalSize : ℚ)) * 100)

/-- The compression ratio as the specification words it:
`(original_size - new_size) / original_size`. Stated for comparison with
`compressionRatio`, which is what the code reports. -/
def specCompressionRatio (originalSize newSize : Nat) : ℚ :=
  (((originalSize : ℚ)) - (newSize : ℚ)) / (originalSize : ℚ)

/-- C5: the File Validator returns valid exactly when the byte size lies in
the inclusive window [MIN_FILE_SIZE, MAX_FILE_SIZE], the declared MIME type
is in the allow-list, and the filename extension maps to the allow-list;
each failing check yields its own rejection reason and the four reasons are
pairwise distinct. The embedding is a pure function, so the validator has no
side effects. -/
theorem C5_validateFile_correct :
    (∀ f : File, (validateFile f).valid = true ↔
      (MIN_FILE_SIZE ≤ f.size ∧ f.size ≤ MAX_FILE_SIZE ∧
       f.type ∈ ALLOWED_FILE_TYPES ∧ extOf f.name ∈ ALLOWED_EXTENSIONS)) ∧
    (∀ f : File, MAX_FILE_SIZE < f.size → (validateFile f).error = some errTooLarge) ∧
    (∀ f : File, f.size ≤ MAX_FILE_SIZE → f.size < MIN_FILE_SIZE →
      (validateFile f).error = some errTooSmall) ∧
    (∀ f : File, MIN_FILE_SIZE ≤ f.size → f.size ≤ MAX_FILE_SIZE →
      f.type ∉ ALLOWED_FILE_TYPES → (validateFile f).error = some errBadType) ∧
    (∀ f : File, MIN_FILE_SIZE ≤ f.size → f.size ≤ MAX_FILE_SIZE →
      f.type ∈ ALLOWED_FILE_TYPES → extOf f.name ∉ ALLOWED_EXTENSIONS →
      (validateFile f).error = some errBadExt) ∧
    [errTooLarge, errTooSmall, errBadType, errBadExt].Pairwise (fun a b => a ≠ b) := by
  refine ⟨?_, ?_, ?_, ?_, ?_, by decide⟩
  · intro f
    simp only [validateFile]
    by_cases h1 : f.size > MAX_FILE_SIZE
    · rw [if_pos h1]
      simp only [Bool.false_eq_true, false_iff]
      intro h
      obtain ⟨-, hb, -, -⟩ := h
      omega
    rw [if_neg h1]
    by_cases h2 : f.size < MIN_FILE_SIZE
    · rw [if_pos h2]
      simp only [Bool.false_eq_true, false_iff]
      intro h
      obtain ⟨ha, -, -, -⟩ := h
      omega
    rw [if_neg h2]
    by_cases h3 : f.type ∈ ALLOWED_FILE_TYPES
    · rw [if_neg (by simpa using h3)]
      by_cases h4 : extOf f.name ∈ ALLOWED_EXTENSIONS
      · have hne : ¬ (extOf f.name = "") := by
          intro he
          rw [he] at h4
          revert h4
          decide
        rw [if_neg (by simp [hne, h4])]
        simp only [true_iff]
        exact ⟨by omega, by omega, h3, h4⟩
      · rw [if_pos (Or.inr h4)]
        simp only [Bool.false_eq_true, false_iff]
        intro h
        exact h4 h.2.2.2
    · rw [if_pos (by simpa using h3)]
      simp only [Bool.false_eq_true, false_iff]
      intro h
      exact h3 h.2.2.1
  · intro f h
    simp only [validateFile]
    rw [if_pos h]
  · intro f h1 h2
    simp only [validateFile]
    rw [if_neg (by omega), if_pos h2]
  · intro f h1 h2 h3
    simp only [validateFile]
    rw [if_neg (by omega), if_neg (by omega), if_pos (by simpa using h3)]
  · intro f h1 h2 h3 h4
    simp only [validateFile]
    rw [if_neg (by omega), if_neg (by omega), if_neg (by simpa using h3),
      if_pos (Or.inr h4)]

/-- Witness for `C5_validateFile_correct`: a 1 KiB JPEG with a matching
extension passes validation. -/
theorem C5_validateFile_correct_witness :
    (validateFile { name := "photo.JPG", type := "image/jpeg", size := 1024 }).valid = true :=
  (C5_validateFile_correct.1 { name := "photo.JPG", type := "image/jpeg", size := 1024 }).mpr
    ⟨by norm_num [MIN_FILE_SIZE], by norm_num [MAX_FILE_SIZE], by decide, by decide⟩

/-- C6 counterexample: for an original size of 2 MiB halved to 1 MiB the code
reports 50 (a rounded percentage), while the formula the claim states,
`(original_size - new_size) / original_size`, gives 1/2. -/
theorem C6_counterexample :
    compressionRatio 2097152 1048576 = 50 ∧
    specCompressionRatio 2097152 1048576 = 1 / 2 ∧
    (compressionRatio 2097152 1048576 : ℚ) ≠ specCompressionRatio 2097152 1048576 := by
  norm_num [compressionRatio, specCompressionRatio, jsRound]

/-- C6 amended: `optimizeImage` reports the compression ratio as the rounded
percentage `Math.round(100 * (original - new) / original)`, and the reported
value is strictly positive exactly when the optimized output is at least half
a percent smaller than the original. -/
theorem C6_compressionRatio_rounded_percent (o n : Nat) (ho : 0 < o) :
    compressionRatio o n = jsRound (100 * specCompressionRatio o n) ∧
    (0 < compressionRatio o n ↔ (o : ℤ) ≤ 200 * ((o : ℤ) - (n : ℤ))) := by
  have ho' : (0 : ℚ) < (o : ℚ) := by exact_mod_cast ho
  constructor
  · unfold compressionRatio specCompressionRatio jsRound
    congr 2
    ring
  · unfold compressionRatio jsRound
    rw [Int.lt_iff_add_one_le, zero_add, Int.le_floor]
    have h1 : (((o : ℚ) - n) / o) * 100 = ((o : ℚ) - n) * 100 / o := by ring
    rw [h1]
    rw [show ((1 : ℤ) : ℚ) ≤ ((o : ℚ) - n) * 100 / o + 1 / 2 ↔
        (1 : ℚ) / 2 ≤ ((o : ℚ) - n) * 100 / o from by
      constructor <;> intro h <;> push_cast at h ⊢ <;> linarith]
    rw [le_div_iff₀ ho']
    constructor
    · intro h
      have h2 : (o : ℚ) ≤ 200 * ((o : ℚ) - n) := by linarith
      exact_mod_cast h2
    · intro h
      have h2 : (o : ℚ) ≤ 200 * ((o : ℚ) - n) := by exact_mod_cast h
      linarith

/-- Witness for `C6_compressionRatio_rounded_percent` at the 2 MiB example. -/
theorem C6_compressionRatio_rounded_percent_witness :
    compressionRatio 2097152 1048576 =
      jsRound (100 * specCompressionRatio 2097152 1048576) ∧
    (0 < compressionRatio 2097152 1048576 ↔
      (2097152 : ℤ) ≤ 200 * ((2097152 : ℤ) - (1048576 : ℤ))) :=
  C6_compressionRatio_rounded_percent 2097152 1048576 (by norm_num)

/-! ## The Convex record store (`convex/schema.ts` and its mutations) -/

/-- A row of the `users` table. `_id` is the Convex document id; `id` is the
Clerk identity id the application keys on. -/
structure UserRow where
  _id : Nat
  id : String
  email : String
  name : Option String := none
  createdAt : Nat
  updatedAt : Nat
deriving DecidableEq, Repr

/-- A row of the `images` table. -/
structure ImageRow where
  _id : Nat
  userId : String
  type : ImageType
  url : String
  filename : Option String := none
  fileSize : Option Nat := none
  mimeType : Option String := none
  createdAt : Nat
  updatedAt : Nat
deriving DecidableEq, Repr

/-- A row of the `swaps` table. -/
structure SwapRow where
  _id : Nat
  userId : String
  userImageId : Nat
  outfitImageId : Nat
  resultImageId : Option Nat := none
  status : SwapStatus
  error : Option String := none
  processingStartedAt : Option Nat := none
  processingCompletedAt : Option Nat := none
  createdAt : Nat
  updatedAt : Nat
deriving DecidableEq, Repr

/-- The record store: the three tables in insertion order plus the next
fresh document id. -/
structure DB where
  users : List UserRow := []
  images : List ImageRow := []
  swaps : List SwapRow := []
  nextId : Nat := 0
deriving DecidableEq, Repr

/-- `api.images.createImage` (`convex/images.ts`): insert an image row. -/
def createImage (db : DB) (userId : String) (ty : ImageType) (url : String)
    (filename : Option String) (fileSize : Option Nat) (mimeType : Option String)
    (now : Nat) : Nat × DB :=
  (db.nextId,
   { db with
     images := db.images ++
       [{ _id := db.nextId, userId := userId, type := ty, url := url,
          filename := filename, fileSize := fileSize, mimeType := mimeType,
          createdAt := now, updatedAt := now }]
     nextId := db.nextId + 1 })

/-- `api.images.getImageById` (`convex/images.ts`): `ctx.db.get`. -/
def getImageById (db : DB) (id : Nat) : Option ImageRow :=
  db.images.find? (fun i => i._id == id)

/-- Arguments of `api.swaps.createSwap` (`convex/swaps.ts` lines 5-29). -/
structure CreateSwapArgs where
  userId : String
  userImageId : Nat
  outfitImageId : Nat
  resultImageId : Option Nat := none
  status : Option SwapStatus := none
deriving DecidableEq, Repr

/-- `api.swaps.createSwap`: insert a swap row, defaulting status to PENDING. -/
def createSwap (db : DB) (args : CreateSwapArgs) (now : Nat) : Nat × DB :=
  (db.nextId,
   { db with
     swaps := db.swaps ++
       [{ _id := db.nextId, userId := args.userId,
          userImageId := args.userImageId, outfitImageId := args.outfitImageId,
          resultImageId := args.resultImageId,
          status := args.status.getD SwapStatus.PENDING,
          createdAt := now, updatedAt := now }]
     nextId := db.nextId + 1 })

/-- Arguments of `api.swaps.updateSwapStatus` (`convex/swaps.ts` lines 32-59):
`status` is required, the other fields are patched only when provided. -/
structure UpdateSwapStatusArgs where
  id : Nat
  status : SwapStatus
  error : Option String := none
  resultImageId : Option Nat := none
  processingStartedAt : Option Nat := none
  processingCompletedAt : Option Nat := none
deriving DecidableEq, Repr

/-- The effect of the `ctx.db.patch` inside `updateSwapStatus` on one row:
the status is written unconditionally; optional arguments overwrite their
fields only when present (`undefined` entries are filtered out). -/
def patchSwapRow (args : UpdateSwapStatusArgs) (now : Nat) (s : SwapRow) : SwapRow :=
  if s._id = args.id then
    { s with
      status := args.status
      error := match args.error with | some e => some e | none => s.error
      resultImageId :=
        match args.resultImageId with | some r => some r | none => s.resultImageId
      processingStartedAt :=
        match args.processingStartedAt with | some t => some t | none => s.processingStartedAt
      processingCompletedAt :=
        match args.processingCompletedAt with
        | some t => some t
        | none => s.processingCompletedAt
      updatedAt := now }
  else s

/-- `api.swaps.updateSwapStatus`: patch the row by id and return it. -/
def updateSwapStatus (db : DB) (args : UpdateSwapStatusArgs) (now : Nat) :
    DB × Option SwapRow :=
  let db2 : DB := { db with swaps := db.swaps.map (patchSwapRow args now) }
  (db2, db2.swaps.find? (fun s => s._id == args.id))

/-- `api.swaps.getSwapsByUser` (`convex/swaps.ts` lines 62-91): all swaps of
one user via the by_userId index, most recent first. -/
def getSwapsByUser (db : DB) (userId : String) : List SwapRow :=
  (db.swaps.filter (fun s => s.userId == userId)).reverse

/-- `api.users.createOrUpdateUser` (`convex/users.ts` lines 130-169):
look the user up by Clerk id; patch email/name when found, insert otherwise.
Returns the Convex document id of the row. -/
def createOrUpdateUser (db : DB) (id email : String) (name : Option String)
    (now : Nat) : Nat × DB :=
  match db.users.find? (fun u => u.id == id) with
  | some existingUser =>
    (existingUser._id,
     { db with
       users := db.users.map (fun u =>
         if u._id = existingUser._id then
           { u with email := email, name := name, updatedAt := now }
         else u) })
  | none =>
    (db.nextId,
     { db with
       users := db.users ++
         [{ _id := db.nextId, id := id, email := email, name := name,
            createdAt := now, updatedAt := now }]
       nextId := db.nextId + 1 })

/-- The Convex variant of `deleteUserFromDb` (`src/lib/user-sync.ts`, Convex
version, lines 134-151): the body only logs that deletion was requested and
that manual cleanup of related records may be needed; no database mutation is
performed. -/
def deleteUserFromDbConvex (db : DB) (_userId : String) : DB := db

/-- Modelled from the spec: the Prisma variant of `deleteUserFromDb` calls
`prisma.user.delete`, and the spec states that deleting a User cascades to
delete all Images and Swaps of that user (the Prisma schema that configures
the cascade is not under src/). -/
def deleteUserFromDbPrisma (db : DB) (userId : String) : DB :=
  { db with
    users := db.users.filter (fun u => !(u.id == userId))
    images := db.images.filter (fun i => !(i.userId == userId))
    swaps := db.swaps.filter (fun s => !(s.userId == userId)) }

/-! ## C3: status transitions -/

/-- A swap that has already reached the terminal status COMPLETED. -/
def c3Row : SwapRow :=
  { _id := 0, userId := "user_1", userImageId := 1, outfitImageId := 2,
    status := SwapStatus.COMPLETED, createdAt := 10, updatedAt := 10 }

def c3Db : DB := { swaps := [c3Row], nextId := 3 }

/-- C3 counterexample: `updateSwapStatus` happily moves a COMPLETED swap back
to PENDING; the patch is applied and the row changes, so the operation is not
rejected and does not leave the row unchanged. -/
theorem C3_counterexample :
    (updateSwapStatus c3Db { id := 0, status := SwapStatus.PENDING } 11).1.swaps =
      [{ c3Row with status := SwapStatus.PENDING, updatedAt := 11 }] ∧
    ¬ ((updateSwapStatus c3Db { id := 0, status := SwapStatus.PENDING } 11).1 = c3Db) := by
  exact ⟨by decide, by decide⟩

/-- C3 amended: `updateSwapStatus` enforces no monotonicity at all — for any
swap row, whatever its current status (including COMPLETED and FAILED), a
status-update request overwrites the status with the requested value. -/
theorem C3_amended (db : DB) (args : UpdateSwapStatusArgs) (now : Nat) (s : SwapRow)
    (hs : s ∈ db.swaps) (hid : s._id = args.id) :
    patchSwapRow args now s ∈ (updateSwapStatus db args now).1.swaps ∧
    (patchSwapRow args now s).status = args.status := by
  constructor
  · show patchSwapRow args now s ∈ db.swaps.map (patchSwapRow args now)
    exact List.mem_map_of_mem _ hs
  · simp [patchSwapRow, hid]

/-- Witness for `C3_amended`: the COMPLETED row of `c3Db` is overwritten to
PROCESSING. -/
theorem C3_amended_witness :
    patchSwapRow { id := 0, status := SwapStatus.PROCESSING } 12 c3Row ∈
      (updateSwapStatus c3Db { id := 0, status := SwapStatus.PROCESSING } 12).1.swaps ∧
    (patchSwapRow { id := 0, status := SwapStatus.PROCESSING } 12 c3Row).status =
      SwapStatus.PROCESSING :=
  C3_amended c3Db { id := 0, status := SwapStatus.PROCESSING } 12 c3Row (by decide) rfl

/-! ## C4: user deletion -/

def c4User : UserRow :=
  { _id := 0, id := "user_1", email := "a@example.com", createdAt := 1, updatedAt := 1 }

def c4Image : ImageRow :=
  { _id := 1, userId := "user_1", type := ImageType.USER,
    url := "https://bucket.s3.region.amazonaws.com/images/user_1/1-a.jpg",
    createdAt := 2, updatedAt := 2 }

def c4Swap : SwapRow :=
  { _id := 2, userId := "user_1", userImageId := 1, outfitImageId := 1,
    status := SwapStatus.COMPLETED, createdAt := 3, updatedAt := 3 }

def c4Db : DB := { users := [c4User], images := [c4Image], swaps := [c4Swap], nextId := 3 }

/-- C4: the Convex variant of `deleteUserFromDb` is a no-op — after calling it
for a user who owns an image and a swap, the user row, the image row and the
swap row all remain; the cascade the spec requires is what the (spec-modelled)
Prisma variant produces. -/
theorem C4_convex_delete_is_noop :
    deleteUserFromDbConvex c4Db "user_1" = c4Db ∧
    ((deleteUserFromDbConvex c4Db "user_1").users.countP (fun u => u.id == "user_1") = 1) ∧
    ((deleteUserFromDbConvex c4Db "user_1").images.countP (fun i => i.userId == "user_1") = 1) ∧
    ((deleteUserFromDbConvex c4Db "user_1").swaps.countP (fun s => s.userId == "user_1") = 1) ∧
    deleteUserFromDbPrisma c4Db "user_1" =
      { users := [], images := [], swaps := [], nextId := 3 } := by
  exact ⟨rfl, by decide, by decide, by decide, by decide⟩

/-! ## C8: idempotent user upsert -/

/-- Mapping a function that does not change whether the predicate holds keeps
the `countP` of a list. -/
theorem countP_map_of_preserve {α : Type} (g : α → α) (p : α → Bool)
    (h : ∀ a, p (g a) = p a) (l : List α) :
    (l.map g).countP p = l.countP p := by
  induction l with
  | nil => rfl
  | cons a l ih => simp [List.countP_cons, ih, h]

/-- A successful `find?` returns a member of the list satisfying the
predicate. -/
theorem find?_some_spec {α : Type} (p : α → Bool) (l : List α) (a : α)
    (h : l.find? p = some a) : p a = true ∧ a ∈ l := by
  induction l with
  | nil => simp [List.find?] at h
  | cons x xs ih =>
    by_cases hx : p x = true
    · rw [List.find?_cons_of_pos _ hx] at h
      obtain rfl : x = a := by injection h
      exact ⟨hx, List.mem_cons_self _ _⟩
    · rw [List.find?_cons_of_neg _ (by simpa using hx)] at h
      obtain ⟨hp, hm⟩ := ih h
      exact ⟨hp, List.mem_cons_of_mem _ hm⟩

/-- A list containing an element satisfying the predicate yields a successful
`find?`. -/
theorem find?_some_of_mem {α : Type} (p : α → Bool) (l : List α) (a : α)
    (ha : a ∈ l) (hp : p a = true) : ∃ b, l.find? p = some b := by
  induction l with
  | nil => cases ha
  | cons x xs ih =>
    by_cases hx : p x = true
    · exact ⟨x, List.find?_cons_of_pos _ hx⟩
    · rcases List.mem_cons.mp ha with rfl | hmem
      · exact absurd hp hx
      · obtain ⟨b, hb⟩ := ih hmem
        exact ⟨b, by rw [List.find?_cons_of_neg _ (by simpa using hx)]; exact hb⟩

/-- One `createOrUpdateUser` call on a store holding at most one row for the
identity id leaves exactly one row for it. -/
theorem upsert_count_one (db : DB) (id email : String) (name : Option String) (now : Nat)
    (huniq : db.users.countP (fun u => u.id == id) ≤ 1) :
    (createOrUpdateUser db id email name now).2.users.countP (fun u => u.id == id) = 1 := by
  unfold createOrUpdateUser
  cases h : db.users.find? (fun u => u.id == id) with
  | none =>
    have hzero : db.users.countP (fun u => u.id == id) = 0 := by
      rw [List.countP_eq_zero]
      exact fun a ha => List.find?_eq_none.mp h a ha
    simp [List.countP_append, hzero, List.countP_cons]
  | some u =>
    have hfound := find?_some_spec (fun u => u.id == id) db.users u h
    have hpres : ∀ a : UserRow,
        ((fun v : UserRow => v.id == id)
          (if a._id = u._id then { a with email := email, name := name, updatedAt := now }
           else a)) = ((fun v : UserRow => v.id == id) a) := by
      intro a
      by_cases hc : a._id = u._id <;> simp [hc]
    have hmapped := countP_map_of_preserve
      (fun a : UserRow =>
        if a._id = u._id then { a with email := email, name := name, updatedAt := now }
        else a)
      (fun v : UserRow => v.id == id) hpres db.users
    have hpos : 0 < db.users.countP (fun v : UserRow => v.id == id) :=
      List.countP_pos_iff.mpr ⟨u, hfound.2, hfound.1⟩
    simpa [hmapped] using by omega

/-- When a matching row already exists, `createOrUpdateUser` patches it: the
table length and the fresh-id counter are unchanged. -/
theorem upsert_update_in_place (db : DB) (id email : String) (name : Option String)
    (now : Nat) (hpos : 0 < db.users.countP (fun u => u.id == id)) :
    (createOrUpdateUser db id email name now).2.users.length = db.users.length ∧
    (createOrUpdateUser db id email name now).2.nextId = db.nextId := by
  obtain ⟨u, hu, hp⟩ := List.countP_pos_iff.mp hpos
  obtain ⟨v, hv⟩ := find?_some_of_mem (fun u => u.id == id) db.users u hu hp
  unfold createOrUpdateUser
  rw [hv]
  exact ⟨List.length_map _ _, rfl⟩

/-- C8: the user upsert is idempotent — starting from a store with at most one
row for the identity id, one call leaves exactly one row for it, a second call
with identical input still leaves exactly one row, and the second call is an
update, not an insert: the user-table length and the fresh-id counter do not
change. -/
theorem C8_upsert_idempotent (db : DB) (id email : String) (name : Option String)
    (now1 now2 : Nat)
    (huniq : db.users.countP (fun u => u.id == id) ≤ 1) :
    ((createOrUpdateUser db id email name now1).2.users.countP
        (fun u => u.id == id) = 1) ∧
    ((createOrUpdateUser (createOrUpdateUser db id email name now1).2
        id email name now2).2.users.countP (fun u => u.id == id) = 1) ∧
    ((createOrUpdateUser (createOrUpdateUser db id email name now1).2
        id email name now2).2.users.length =
      (createOrUpdateUser db id email name now1).2.users.length) ∧
    ((createOrUpdateUser (createOrUpdateUser db id email name now1).2
        id email name now2).2.nextId =
      (createOrUpdateUser db id email name now1).2.nextId) := by
  have h1 := upsert_count_one db id email name now1 huniq
  have h2 := upsert_count_one (createOrUpdateUser db id email name now1).2
    id email name now2 (by omega)
  have h3 := upsert_update_in_place (createOrUpdateUser db id email name now1).2
    id email name now2 (by omega)
  exact ⟨h1, h2, h3.1, h3.2⟩

/-! ## C9: swap history endpoint -/

/-- JS `x || null` on an optional string: the empty string is falsy. -/
def jsOrNull : Option String → Option String
  | some u => if u = "" then none else some u
  | none => none

/-- One element of the `swaps` array returned by GET /api/swap. -/
structure SwapHistoryItem where
  id : Nat
  createdAt : Nat
  status : SwapStatus
  generatedImageUrl : Option String
deriving DecidableEq, Repr

/-- The JSON body (plus HTTP status) returned by GET /api/swap. -/
structure SwapHistoryResponse where
  status : Nat
  success : Bool := false
  swaps : List SwapHistoryItem := []
  total : Nat := 0
  error : Option String := none
deriving DecidableEq, Repr

/-- GET /api/swap (`src/app/api/swap/route.ts` lines 211-250): fetch the
swaps of the caller (most recent first), keep only the COMPLETED ones, paginate
with `slice(offset, offset + limit)`, and report the count of COMPLETED swaps
as `total`. -/
def swapHistoryGet (db : DB) (userId : Option String) (limit offset : Nat) :
    SwapHistoryResponse :=
  match userId with
  | none => { status := 401, error := some "Authentication required" }
  | some uid =>
    let allSwaps := getSwapsByUser db uid
    let completedSwaps := allSwaps.filter (fun s => s.status == SwapStatus.COMPLETED)
    let paginatedSwaps := (completedSwaps.drop offset).take limit
    { status := 200
      success := true
      swaps := paginatedSwaps.map (fun s =>
        { id := s._id, createdAt := s.createdAt, status := s.status,
          generatedImageUrl :=
            jsOrNull ((s.resultImageId.bind (getImageById db)).map (fun i => i.url)) })
      total := completedSwaps.length }

/-- `countP` with a conjunction is symmetric in the two tests. -/
theorem countP_and_comm {α : Type} (p q : α → Bool) (l : List α) :
    l.countP (fun a => p a && q a) = l.countP (fun a => q a && p a) := by
  induction l with
  | nil => rfl
  | cons a l ih => cases hp : p a <;> cases hq : q a <;> simp [List.countP_cons, hp, hq, ih]

/-- The length of a double filter is a `countP` with the conjunction of the
predicates. -/
theorem countP_filter_eq {α : Type} (p q : α → Bool) (l : List α) :
    (List.filter p (List.filter q l)).length = l.countP (fun a => q a && p a) := by
  rw [List.filter_filter, ← List.countP_eq_length_filter, countP_and_comm]

/-- `countP` is invariant under reversal. -/
theorem countP_reverse_eq {α : Type} (p : α → Bool) (l : List α) :
    l.reverse.countP p = l.countP p := by
  induction l with
  | nil => rfl
  | cons a l ih => simp [List.countP_append, List.countP_cons, ih]

/-- C9: the history endpoint returns only COMPLETED swaps (so PENDING,
PROCESSING and FAILED swaps never appear), `total` counts exactly the
COMPLETED swaps of the caller, the page length is bounded by the limit/offset
slice, and — provided the store lists swaps in chronological order — the page
is ordered most-recent-first. -/
theorem C9_history_completed_only (db : DB) (uid : String) (limit offset : Nat)
    (hchron : db.swaps.Pairwise (fun a b => a.createdAt ≤ b.createdAt)) :
    (∀ item ∈ (swapHistoryGet db (some uid) limit offset).swaps,
      item.status = SwapStatus.COMPLETED) ∧
    (swapHistoryGet db (some uid) limit offset).total =
      db.swaps.countP (fun s => s.userId == uid && s.status == SwapStatus.COMPLETED) ∧
    (swapHistoryGet db (some uid) limit offset).swaps.length =
      min limit ((swapHistoryGet db (some uid) limit offset).total - offset) ∧
    (swapHistoryGet db (some uid) limit offset).swaps.Pairwise
      (fun a b => b.createdAt ≤ a.createdAt) ∧
    (swapHistoryGet db (some uid) limit offset).success = true := by
  refine ⟨?_, ?_, ?_, ?_, rfl⟩
  · intro item him
    simp only [swapHistoryGet, List.mem_map] at him
    obtain ⟨s, hs, rfl⟩ := him
    have hs2 := List.mem_of_mem_take hs
    have hs3 := List.mem_of_mem_drop hs2
    have hs4 := (List.mem_filter.mp hs3).2
    simpa using of_decide_eq_true (by simpa using hs4)
  · simp only [swapHistoryGet]
    unfold getSwapsByUser
    rw [← List.filter_reverse, countP_filter_eq, countP_reverse_eq]
  · simp only [swapHistoryGet]
    rw [List.length_map, List.length_take, List.length_drop]
  · simp only [swapHistoryGet]
    rw [List.pairwise_map]
    have h1 : (getSwapsByUser db uid).Pairwise (fun a b => b.createdAt ≤ a.createdAt) := by
      unfold getSwapsByUser
      rw [List.pairwise_reverse]
      exact List.Pairwise.sublist (List.filter_sublist _) hchron
    have h2 : ((getSwapsByUser db uid).filter
        (fun s => s.status == SwapStatus.COMPLETED)).Pairwise
          (fun a b => b.createdAt ≤ a.createdAt) :=
      List.Pairwise.sublist (List.filter_sublist _) h1
    have h3 := List.Pairwise.sublist (List.drop_sublist offset _) h2
    have h4 := List.Pairwise.sublist (List.take_sublist limit _) h3
    exact h4

/-- Witness for `C9_history_completed_only`: a store with one COMPLETED and
one FAILED swap for the same user. -/
theorem C9_history_completed_only_witness :
    (∀ item ∈ (swapHistoryGet
        { swaps :=
            [{ _id := 0, userId := "u1", userImageId := 9, outfitImageId := 9,
               status := SwapStatus.COMPLETED, createdAt := 1, updatedAt := 1 },
             { _id := 1, userId := "u1", userImageId := 9, outfitImageId := 9,
               status := SwapStatus.FAILED, createdAt := 2, updatedAt := 2 }],
          nextId := 2 } (some "u1") 10 0).swaps,
      item.status = SwapStatus.COMPLETED) ∧
    (swapHistoryGet
        { swaps :=
            [{ _id := 0, userId := "u1", userImageId := 9, outfitImageId := 9,
               status := SwapStatus.COMPLETED, createdAt := 1, updatedAt := 1 },
             { _id := 1, userId := "u1", userImageId := 9, outfitImageId := 9,
               status := SwapStatus.FAILED, createdAt := 2, updatedAt := 2 }],
          nextId := 2 } (some "u1") 10 0).total =
      ({ swaps :=
            [{ _id := 0, userId := "u1", userImageId := 9, outfitImageId := 9,
               status := SwapStatus.COMPLETED, createdAt := 1, updatedAt := 1 },
             { _id := 1, userId := "u1", userImageId := 9, outfitImageId := 9,
               status := SwapStatus.FAILED, createdAt := 2, updatedAt := 2 }],
          nextId := 2 } : DB).swaps.countP
        (fun s => s.userId == "u1" && s.status == SwapStatus.COMPLETED) ∧
    (swapHistoryGet
        { swaps :=
            [{ _id := 0, userId := "u1", userImageId := 9, outfitImageId := 9,
               status := SwapStatus.COMPLETED, createdAt := 1, updatedAt := 1 },
             { _id := 1, userId := "u1", userImageId := 9, outfitImageId := 9,
               status := SwapStatus.FAILED, createdAt := 2, updatedAt := 2 }],
          nextId := 2 } (some "u1") 10 0).swaps.length =
      min 10 ((swapHistoryGet
        { swaps :=
            [{ _id := 0, userId := "u1", userImageId := 9, outfitImageId := 9,
               status := SwapStatus.COMPLETED, createdAt := 1, updatedAt := 1 },
             { _id := 1, userId := "u1", userImageId := 9, outfitImageId := 9,
               status := SwapStatus.FAILED, createdAt := 2, updatedAt := 2 }],
          nextId := 2 } (some "u1") 10 0).total - 0) ∧
    (swapHistoryGet
        { swaps :=
            [{ _id := 0, userId := "u1", userImageId := 9, outfitImageId := 9,
               status := SwapStatus.COMPLETED, createdAt := 1, updatedAt := 1 },
             { _id := 1, userId := "u1", userImageId := 9, outfitImageId := 9,
               status := SwapStatus.FAILED, createdAt := 2, updatedAt := 2 }],
          nextId := 2 } (some "u1") 10 0).swaps.Pairwise
      (fun a b => b.createdAt ≤ a.createdAt) ∧
    (swapHistoryGet
        { swaps :=
            [{ _id := 0, userId := "u1", userImageId := 9, outfitImageId := 9,
               status := SwapStatus.COMPLETED, createdAt := 1, updatedAt := 1 },
             { _id := 1, userId := "u1", userImageId := 9, outfitImageId := 9,
               status := SwapStatus.FAILED, createdAt := 2, updatedAt := 2 }],
          nextId := 2 } (some "u1") 10 0).success = true :=
  C9_history_completed_only
    { swaps :=
        [{ _id := 0, userId := "u1", userImageId := 9, outfitImageId := 9,
           status := SwapStatus.COMPLETED, createdAt := 1, updatedAt := 1 },
         { _id := 1, userId := "u1", userImageId := 9, outfitImageId := 9,
           status := SwapStatus.FAILED, createdAt := 2, updatedAt := 2 }],
      nextId := 2 } "u1" 10 0 (by decide)

/-! ## C7: presigned URLs -/

/-- Index of the first occurrence of `sep` as a contiguous sublist, if any. -/
def findSubstrIdx (sep : List Char) : List Char → Option Nat
  | [] => none
  | c :: rest =>
    if sep.isPrefixOf (c :: rest) then some 0
    else (findSubstrIdx sep rest).map (fun i => i + 1)

/-- JS `s.split(sep)[1]` for a non-empty separator: the slice between the
first occurrence of `sep` and the following occurrence (or the end of the
string); `none` when the separator does not occur (the JS array has no
index 1 then). -/
def splitSecondPiece (sep s : String) : Option String :=
  match findSubstrIdx sep.data s.data with
  | none => none
  | some i =>
    let afterFirst := s.data.drop (i + sep.data.length)
    match findSubstrIdx sep.data afterFirst with
    | none => some afterFirst.asString
    | some j => some (afterFirst.take j).asString

/-- The JSON body (plus HTTP status) returned by GET /api/images/presigned. -/
structure PresignedResponse where
  status : Nat
  success : Bool := false
  url : Option String := none
  expiresIn : Option Nat := none
  action : Option String := none
  filename : Option String := none
  error : Option String := none
deriving DecidableEq, Repr

/-- GET /api/images/presigned (`src/app/api/images/presigned/route.ts`):
authenticate, default the action to view, look the image up, refuse foreign
images with 403, extract the S3 key from the stored URL, choose the TTL
(300 s for download, 3600 s otherwise) and mint the presigned URL. The
`signer` oracle abstracts `getSignedUrl` as key → expiresIn → url. -/
def presignedGet (db : DB) (signer : String → Nat → Option String)
    (userId : Option String) (imageId : Option Nat) (actionParam : Option String) :
    PresignedResponse :=
  match userId with
  | none => { status := 401, error := some "Unauthorized" }
  | some uid =>
    let action := match actionParam with
      | none => "view"
      | some a => if a = "" then "view" else a
    match imageId with
    | none => { status := 400, error := some "Image ID is required" }
    | some iid =>
      match getImageById db iid with
      | none => { status := 404, error := some "Image not found" }
      | some image =>
        if image.userId ≠ uid then
          { status := 403, error := some "Access denied" }
        else
          match splitSecondPiece ".amazonaws.com/" image.url with
          | none => { status := 500, error := some "Invalid image URL format" }
          | some s3Key =>
            if s3Key = "" then { status := 500, error := some "Invalid image URL format" }
            else
              let expiresIn := if action = "download" then 300 else 3600
              match signer s3Key expiresIn with
              | none => { status := 500, error := some "Failed to generate secure URL" }
              | some presignedUrl =>
                { status := 200, success := true, url := some presignedUrl,
                  expiresIn := some expiresIn, action := some action,
                  filename := some (image.filename.getD "image.jpg") }

/-- C7: for a stored image and its owner, a view request is granted a 3600 s
expiry and a download request a 300 s expiry; the two URLs differ whenever
the signer distinguishes the two TTLs; and a requester who is not the owner
receives a 403. -/
theorem C7_presigned_ttls_and_403 (db : DB) (signer : String → Nat → Option String)
    (uid otherUid : String) (iid : Nat) (image : ImageRow) (key uV uD : String)
    (himg : getImageById db iid = some image)
    (hown : image.userId = uid)
    (hkey : splitSecondPiece ".amazonaws.com/" image.url = some key)
    (hk : ¬ (key = ""))
    (hsV : signer key 3600 = some uV)
    (hsD : signer key 300 = some uD)
    (hdist : ¬ (uV = uD))
    (hother : ¬ (otherUid = uid)) :
    (presignedGet db signer (some uid) (some iid) (some "view")).expiresIn = some 3600 ∧
    (presignedGet db signer (some uid) (some iid) (some "view")).url = some uV ∧
    (presignedGet db signer (some uid) (some iid) (some "download")).expiresIn = some 300 ∧
    (presignedGet db signer (some uid) (some iid) (some "download")).url = some uD ∧
    ¬ ((presignedGet db signer (some uid) (some iid) (some "view")).url =
       (presignedGet db signer (some uid) (some iid) (some "download")).url) ∧
    (presignedGet db signer (some otherUid) (some iid) (some "view")).status = 403 := by
  have hview : presignedGet db signer (some uid) (some iid) (some "view") =
      { status := 200, success := true, url := some uV, expiresIn := some 3600,
        action := some "view", filename := some (image.filename.getD "image.jpg") } := by
    simp only [presignedGet, himg, hkey]
    rw [if_neg (show ¬ (image.userId ≠ uid) from by simp [hown])]
    rw [if_neg hk]
    simp [hsV, show ¬ (("view" : String) = "download") from by decide]
  have hdl : presignedGet db signer (some uid) (some iid) (some "download") =
      { status := 200, success := true, url := some uD, expiresIn := some 300,
        action := some "download", filename := some (image.filename.getD "image.jpg") } := by
    simp only [presignedGet, himg, hkey]
    rw [if_neg (show ¬ (image.userId ≠ uid) from by simp [hown])]
    rw [if_neg hk]
    simp [hsD, show ¬ (("download" : String) = "") from by decide]
  refine ⟨by rw [hview], by rw [hview], by rw [hdl], by rw [hdl], ?_, ?_⟩
  · rw [hview, hdl]
    simpa using hdist
  · simp only [presignedGet, himg]
    rw [if_pos (show image.userId ≠ otherUid from by
      rw [hown]; exact fun h => hother h.symm)]

/-- Witness for `C7_presigned_ttls_and_403` on a one-image store with a
signer that embeds the TTL in the minted URL. -/
theorem C7_presigned_ttls_and_403_witness :
    (presignedGet
        { images :=
            [{ _id := 0, userId := "owner", type := ImageType.RESULT,
               url := "https://b.s3.r.amazonaws.com/images/owner/1-x.png",
               createdAt := 1, updatedAt := 1 }],
          nextId := 1 }
        (fun k t => some (k ++ "?ttl=" ++ toString t))
        (some "owner") (some 0) (some "view")).expiresIn = some 3600 ∧
    (presignedGet
        { images :=
            [{ _id := 0, userId := "owner", type := ImageType.RESULT,
               url := "https://b.s3.r.amazonaws.com/images/owner/1-x.png",
               createdAt := 1, updatedAt := 1 }],
          nextId := 1 }
        (fun k t => some (k ++ "?ttl=" ++ toString t))
        (some "owner") (some 0) (some "view")).url =
      some ("images/owner/1-x.png" ++ "?ttl=" ++ toString 3600) ∧
    (presignedGet
        { images :=
            [{ _id := 0, userId := "owner", type := ImageType.RESULT,
               url := "https://b.s3.r.amazonaws.com/images/owner/1-x.png",
               createdAt := 1, updatedAt := 1 }],
          nextId := 1 }
        (fun k t => some (k ++ "?ttl=" ++ toString t))
        (some "owner") (some 0) (some "download")).expiresIn = some 300 ∧
    (presignedGet
        { images :=
            [{ _id := 0, userId := "owner", type := ImageType.RESULT,
               url := "https://b.s3.r.amazonaws.com/images/owner/1-x.png",
               createdAt := 1, updatedAt := 1 }],
          nextId := 1 }
        (fun k t => some (k ++ "?ttl=" ++ toString t))
        (some "owner") (some 0) (some "download")).url =
      some ("images/owner/1-x.png" ++ "?ttl=" ++ toString 300) ∧
    ¬ ((presignedGet
        { images :=
            [{ _id := 0, userId := "owner", type := ImageType.RESULT,
               url := "https://b.s3.r.amazonaws.com/images/owner/1-x.png",
               createdAt := 1, updatedAt := 1 }],
          nextId := 1 }
        (fun k t => some (k ++ "?ttl=" ++ toString t))
        (some "owner") (some 0) (some "view")).url =
       (presignedGet
        { images :=
            [{ _id := 0, userId := "owner", type := ImageType.RESULT,
               url := "https://b.s3.r.amazonaws.com/images/owner/1-x.png",
               createdAt := 1, updatedAt := 1 }],
          nextId := 1 }
        (fun k t => some (k ++ "?ttl=" ++ toString t))
        (some "owner") (some 0) (some "download")).url) ∧
    (presignedGet
        { images :=
            [{ _id := 0, userId := "owner", type := ImageType.RESULT,
               url := "https://b.s3.r.amazonaws.com/images/owner/1-x.png",
               createdAt := 1, updatedAt := 1 }],
          nextId := 1 }
        (fun k t => some (k ++ "?ttl=" ++ toString t))
        (some "intruder") (some 0) (some "view")).status = 403 :=
  C7_presigned_ttls_and_403
    { images :=
        [{ _id := 0, userId := "owner", type := ImageType.RESULT,
           url := "https://b.s3.r.amazonaws.com/images/owner/1-x.png",
           createdAt := 1, updatedAt := 1 }],
      nextId := 1 }
    (fun k t => some (k ++ "?ttl=" ++ toString t))
    "owner" "intruder" 0
    { _id := 0, userId := "owner", type := ImageType.RESULT,
      url := "https://b.s3.r.amazonaws.com/images/owner/1-x.png",
      createdAt := 1, updatedAt := 1 }
    "images/owner/1-x.png"
    ("images/owner/1-x.png" ++ "?ttl=" ++ toString 3600)
    ("images/owner/1-x.png" ++ "?ttl=" ++ toString 300)
    (by decide) rfl (by decide) (by decide) rfl rfl (by decide) (by decide)

/-- Witness for `C8_upsert_idempotent`: upserting twice into an empty store. -/
theorem C8_upsert_idempotent_witness :
    ((createOrUpdateUser {} "user_1" "a@example.com" none 1).2.users.countP
        (fun u => u.id == "user_1") = 1) ∧
    ((createOrUpdateUser (createOrUpdateUser {} "user_1" "a@example.com" none 1).2
        "user_1" "a@example.com" none 2).2.users.countP (fun u => u.id == "user_1") = 1) ∧
    ((createOrUpdateUser (createOrUpdateUser {} "user_1" "a@example.com" none 1).2
        "user_1" "a@example.com" none 2).2.users.length =
      (createOrUpdateUser {} "user_1" "a@example.com" none 1).2.users.length) ∧
    ((createOrUpdateUser (createOrUpdateUser {} "user_1" "a@example.com" none 1).2
        "user_1" "a@example.com" none 2).2.nextId =
      (createOrUpdateUser {} "user_1" "a@example.com" none 1).2.nextId) :=
  C8_upsert_idempotent {} "user_1" "a@example.com" none 1 2 (by decide)

/-! ## The AI service (`src/services/ai-service.ts`) and the POST /api/swap
orchestrator (`src/app/api/swap/route.ts`) -/

/-- Result type of the AI service calls (`SwapResult` in
`src/services/ai-service.ts`). -/
structure SwapResult where
  success : Bool
  generatedImageUrl : Option String := none
  error : Option String := none
deriving DecidableEq, Repr

/-- An inlined image payload inside a generation-response part. -/
structure InlineData where
  mimeType : Option String := none
  data : String
deriving DecidableEq, Repr

/-- One part of the first candidate of the generation response. -/
structure GenPart where
  inlineData : Option InlineData := none
  text : Option String := none
deriving DecidableEq, Repr

/-- The generation response body as far as `generateSwappedImage` inspects
it: the candidate parts, the result of the regex search for a quoted `data`
field over the serialized JSON, and the serialized JSON text itself (used in
the no-image error message). -/
structure GenResponse where
  parts : List GenPart
  textDataMatch : Option String := none
  serialized : String := ""
deriving DecidableEq, Repr

/-- The outcomes of the external AI calls a swap makes, in order: the outfit
description call, the image-generation call, and the fallback style-analysis
call. `Except.error` models a thrown transport error or a non-2xx response. -/
structure AIOracle where
  describeOutfit : Except String String
  generate : Except String GenResponse
  fallbackDescribe : Except String String
deriving Repr

/-- The outcomes of the S3 interactions of one swap request:
`validateS3Config` (an error message when invalid), and the three uploads.
A successful `resultPut` carries the public URL and the metadata byte size. -/
structure S3Oracle where
  configError : Option String := none
  personPut : Except String String
  outfitPut : Except String String
  resultPut : Except String (String × Nat)
deriving Repr

/-- External calls a swap request performs, in order of occurrence. -/
inductive Ev where
  | aiDescribe
  | aiGenerate
  | aiFallback
  | s3UploadPerson
  | s3UploadOutfit
  | s3UploadResult
  | dbUpsertUser
  | dbCreateImage (ty : ImageType)
  | dbCreateSwap
  | dbUpdateSwap
deriving DecidableEq, Repr

/-- The scan over the response parts (`generateSwappedImage` lines 296-308):
the first part carrying inline data with a truthy (non-empty) payload. -/
def findInlineData : List GenPart → Option InlineData
  | [] => none
  | p :: ps =>
    match p.inlineData with
    | some d => if d.data = "" then findInlineData ps else some d
    | none => findInlineData ps

/-- JS `x.mimeType || "image/png"`. -/
def mimeOrPng : Option String → String
  | some m => if m = "" then "image/png" else m
  | none => "image/png"

/-- JS `x || d` on an optional string: the default when absent or empty. -/
def jsOrD (x : Option String) (d : String) : String :=
  match x with
  | some s => if s = "" then d else s
  | none => d

/-- JS `s.substring(0, n)`: the first `n` characters. -/
def jsSubstringTo (s : String) (n : Nat) : String :=
  (s.data.take n).asString

/-- The error produced when the generation call answers without any image
payload (`generateSwappedImage` lines 321-325). -/
def noImageDataError (r : GenResponse) : String :=
  "Image generation model responded but no image data found. Response structure: "
    ++ jsSubstringTo r.serialized 500 ++ "..."

/-- `generateSwappedImage` (`src/services/ai-service.ts` lines 248-385):
on a 2xx response, look for an inline payload, then for a textual `data`
match; report failure with `noImageDataError` when neither is found. On a
thrown/non-2xx generation call, attempt the fallback style-description call
and report failure either way. Also returns the external calls made. -/
def generateSwappedImage (ai : AIOracle) : SwapResult × List Ev :=
  match ai.generate with
  | Except.ok result =>
    match findInlineData result.parts with
    | some d =>
      ({ success := true,
         generatedImageUrl :=
           some ("data:" ++ mimeOrPng d.mimeType ++ ";base64," ++ d.data) },
       [Ev.aiGenerate])
    | none =>
      match result.textDataMatch with
      | some m =>
        ({ success := true, generatedImageUrl := some ("data:image/png;base64," ++ m) },
         [Ev.aiGenerate])
      | none =>
        ({ success := false, error := some (noImageDataError result) }, [Ev.aiGenerate])
  | Except.error e =>
    match ai.fallbackDescribe with
    | Except.ok description =>
      ({ success := false,
         error := some ("Image generation failed. Style analysis: " ++ description) },
       [Ev.aiGenerate, Ev.aiFallback])
    | Except.error _ =>
      ({ success := false, error := some e }, [Ev.aiGenerate, Ev.aiFallback])

/-- `performOutfitSwap` (`src/services/ai-service.ts` lines 390-417): describe
the outfit, then generate; a throwing description call is caught and reported
as a failed swap without calling generation. -/
def performOutfitSwap (ai : AIOracle) : SwapResult × List Ev :=
  match ai.describeOutfit with
  | Except.error _ =>
    ({ success := false, error := some "Failed to analyze outfit image" }, [Ev.aiDescribe])
  | Except.ok _description =>
    let genResult := generateSwappedImage ai
    (genResult.1, Ev.aiDescribe :: genResult.2)

/-- `uploadFileToS3` (`src/lib/aws-s3.ts` lines 297-330): validate the file
first, then perform the S3 put, whose outcome the oracle supplies. -/
def uploadFileToS3 (file : File) (putOutcome : Except String String) :
    Except String String :=
  if (validateFile file).valid then putOutcome
  else Except.error ((validateFile file).error.getD "")

/-- The MIME allow-list of the swap route (`src/app/api/swap/route.ts`
line 35). -/
def routeAllowedTypes : List String :=
  ["image/jpeg", "image/jpg", "image/png", "image/webp"]

/-- The JSON body (plus HTTP status) returned by POST /api/swap. -/
structure SwapPostResponse where
  status : Nat
  success : Bool := false
  error : Option String := none
  swapId : Option Nat := none
  resultImageId : Option Nat := none
  generatedImageUrl : Option String := none
  message : Option String := none
deriving DecidableEq, Repr

/-- The full outcome of one POST /api/swap invocation: the HTTP response, the
final database state, and the ordered trace of external calls. -/
structure SwapPostOutcome where
  resp : SwapPostResponse
  db : DB
  trace : List Ev
deriving DecidableEq, Repr

/-- POST /api/swap (`src/app/api/swap/route.ts` lines 10-208): authenticate,
check both files, their MIME types and their sizes; run the AI workflow; on
AI failure answer 500 with the captured error and stop — before any storage
or record write. Otherwise upsert the user, upload and record both source
images, attempt to store the generated artifact (a failure here is logged and
skipped), create the swap row with status COMPLETED, stamp the completion
time, and answer success with the stored URL or, absent one, the raw base64
data URL. -/
def swapPost (db : DB) (ai : AIOracle) (s3 : S3Oracle) (userId : Option String)
    (outfitImage personImage : Option File) (now : Nat) : SwapPostOutcome :=
  match userId with
  | none => ⟨{ status := 401, error := some "Authentication required" }, db, []⟩
  | some uid =>
    match outfitImage, personImage with
    | some outfit, some person =>
      if ¬ (outfit.type ∈ routeAllowedTypes) ∨ ¬ (person.type ∈ routeAllowedTypes) then
        ⟨{ status := 400,
           error := some "Invalid file type. Only JPEG, PNG, and WebP are allowed." },
         db, []⟩
      else if outfit.size > MAX_FILE_SIZE ∨ person.size > MAX_FILE_SIZE then
        ⟨{ status := 400, error := some "File size too large. Maximum 5MB per image." },
         db, []⟩
      else
        let swapRun := performOutfitSwap ai
        let swapResult := swapRun.1
        let aiTrace := swapRun.2
        if swapResult.success = false then
          ⟨{ status := 500,
             error := some (jsOrD swapResult.error "Failed to process outfit swap") },
           db, aiTrace⟩
        else
          match s3.configError with
          | some cfgErr =>
            ⟨{ status := 500, error := some ("Storage configuration error: " ++ cfgErr) },
             db, aiTrace⟩
          | none =>
            let db1 := (createOrUpdateUser db uid "" none now).2
            match uploadFileToS3 person s3.personPut with
            | Except.error e =>
              ⟨{ status := 500, error := some ("Failed to upload person image: " ++ e) },
               db1, aiTrace ++ [Ev.dbUpsertUser, Ev.s3UploadPerson]⟩
            | Except.ok personUrl =>
              match uploadFileToS3 outfit s3.outfitPut with
              | Except.error e =>
                ⟨{ status := 500, error := some ("Failed to upload outfit image: " ++ e) },
                 db1, aiTrace ++ [Ev.dbUpsertUser, Ev.s3UploadPerson, Ev.s3UploadOutfit]⟩
              | Except.ok outfitUrl =>
                let userImg := createImage db1 uid ImageType.USER personUrl
                  (some person.name) (some person.size) (some person.type) now
                let outfitImg := createImage userImg.2 uid ImageType.OUTFIT outfitUrl
                  (some outfit.name) (some outfit.size) (some outfit.type) now
                let db3 := outfitImg.2
                let baseTrace := aiTrace ++
                  [Ev.dbUpsertUser, Ev.s3UploadPerson, Ev.s3UploadOutfit,
                   Ev.dbCreateImage ImageType.USER, Ev.dbCreateImage ImageType.OUTFIT]
                let resultStep : Option Nat × DB × List Ev :=
                  match swapResult.generatedImageUrl with
                  | none => (none, db3, baseTrace)
                  | some genUrl =>
                    if genUrl = "" then (none, db3, baseTrace)
                    else
                      match s3.resultPut with
                      | Except.error _ => (none, db3, baseTrace ++ [Ev.s3UploadResult])
                      | Except.ok resultUp =>
                        let resultImg := createImage db3 uid ImageType.RESULT resultUp.1
                          (some ("swap-result-" ++ toString now ++ ".png"))
                          (some resultUp.2) (some "image/png") now
                        (some resultImg.1, resultImg.2,
                         baseTrace ++ [Ev.s3UploadResult, Ev.dbCreateImage ImageType.RESULT])
                let resultImageId := resultStep.1
                let db4 := resultStep.2.1
                let trace4 := resultStep.2.2
                let swapCreated := createSwap db4
                  { userId := uid, userImageId := userImg.1, outfitImageId := outfitImg.1,
                    resultImageId := resultImageId, status := some SwapStatus.COMPLETED } now
                let swapId := swapCreated.1
                let db6 := (updateSwapStatus swapCreated.2
                  { id := swapId, status := SwapStatus.COMPLETED,
                    processingCompletedAt := some now } now).1
                let finalImageUrl : Option String :=
                  match resultImageId with
                  | some rid =>
                    match getImageById db6 rid with
                    | some img =>
                      if img.url = "" then swapResult.generatedImageUrl else some img.url
                    | none => swapResult.generatedImageUrl
                  | none => swapResult.generatedImageUrl
                ⟨{ status := 200, success := true, swapId := some swapId,
                   resultImageId := resultImageId, generatedImageUrl := finalImageUrl,
                   message := some "Outfit swap completed successfully" },
                 db6, trace4 ++ [Ev.dbCreateSwap, Ev.dbUpdateSwap]⟩
    | _, _ =>
      ⟨{ status := 400, error := some "Both outfit image and person image are required" },
       db, []⟩

/-! ## Concrete fixtures for the swap endpoint -/

def cPersonFile : File := { name := "person.jpg", type := "image/jpeg", size := 2048 }

def cOutfitFile : File := { name := "outfit.png", type := "image/png", size := 4096 }

/-- A generation response carrying no image payload at all. -/
def cGenNoImage : GenResponse :=
  { parts := [{ text := some "no image available" }], serialized := "resp" }

def cAiNoImage : AIOracle :=
  { describeOutfit := Except.ok "a red jacket",
    generate := Except.ok cGenNoImage,
    fallbackDescribe := Except.error "unused" }

def cS3AllOk : S3Oracle :=
  { personPut := Except.ok "https://b.s3.r.amazonaws.com/images/u1/1-p.jpg",
    outfitPut := Except.ok "https://b.s3.r.amazonaws.com/images/u1/1-o.png",
    resultPut := Except.ok ("https://b.s3.r.amazonaws.com/images/u1/1-r.png", 777) }

/-- A generation response carrying an inline image payload. -/
def cGenWithImage : GenResponse :=
  { parts := [{ inlineData := some { mimeType := some "image/png", data := "QUJD" } }],
    serialized := "resp2" }

def cAiOk : AIOracle :=
  { describeOutfit := Except.ok "a red jacket",
    generate := Except.ok cGenWithImage,
    fallbackDescribe := Except.error "unused" }

/-! ## C2: call ordering -/

/-- Whether an event is an external AI call. -/
def isAIEv : Ev → Bool
  | Ev.aiDescribe => true
  | Ev.aiGenerate => true
  | Ev.aiFallback => true
  | _ => false

/-- Whether an event stores a source image: an S3 upload of the person or
outfit file, or the creation of its Image row. -/
def isSourceStoreEv : Ev → Bool
  | Ev.s3UploadPerson => true
  | Ev.s3UploadOutfit => true
  | Ev.dbCreateImage ImageType.USER => true
  | Ev.dbCreateImage ImageType.OUTFIT => true
  | _ => false

/-- `allBefore p q tr` holds when every `p`-event of the trace occurs strictly
before every `q`-event: at each `q`-event, no later event satisfies `p`. -/
def allBefore {α : Type} (p q : α → Bool) : List α → Bool
  | [] => true
  | e :: tr => (if q e then tr.all (fun x => !p x) else true) && allBefore p q tr

/-- The ordering property C2 claims of one swap request: both source images
are stored before any AI call, and the description call precedes the
generation call. -/
def claimC2Holds (tr : List Ev) : Bool :=
  allBefore isSourceStoreEv isAIEv tr &&
  allBefore (fun e => e == Ev.aiDescribe) (fun e => e == Ev.aiGenerate) tr

/-- The traces `performOutfitSwap` can produce. -/
theorem performOutfitSwap_trace (ai : AIOracle) :
    (performOutfitSwap ai).2 = [Ev.aiDescribe] ∨
    (performOutfitSwap ai).2 = [Ev.aiDescribe, Ev.aiGenerate] ∨
    (performOutfitSwap ai).2 = [Ev.aiDescribe, Ev.aiGenerate, Ev.aiFallback] := by
  unfold performOutfitSwap generateSwappedImage
  cases hd : ai.describeOutfit with
  | error e => simp
  | ok d =>
    cases hg : ai.generate with
    | error e =>
      cases hf : ai.fallbackDescribe with
      | ok f => simp [hf]
      | error f => simp [hf]
    | ok r =>
      cases hi : findInlineData r.parts with
      | some d2 => simp [hi]
      | none =>
        cases hm : r.textDataMatch with
        | some m => simp [hi, hm]
        | none => simp [hi, hm]

/-- The storage-and-record suffix shared by all post-AI branches of the swap
route. -/
def sfxBase : List Ev :=
  [Ev.dbUpsertUser, Ev.s3UploadPerson, Ev.s3UploadOutfit,
   Ev.dbCreateImage ImageType.USER, Ev.dbCreateImage ImageType.OUTFIT]

/-- Every trace of the swap route is empty (pre-AI failure) or the AI-call
prefix followed by one of six storage/record suffixes. -/
theorem swapPost_trace_shape (db : DB) (ai : AIOracle) (s3 : S3Oracle)
    (userId : Option String) (o p : Option File) (now : Nat) :
    (swapPost db ai s3 userId o p now).trace = [] ∨
    ∃ sfx ∈ [([] : List Ev),
        [Ev.dbUpsertUser, Ev.s3UploadPerson],
        [Ev.dbUpsertUser, Ev.s3UploadPerson, Ev.s3UploadOutfit],
        sfxBase ++ [Ev.dbCreateSwap, Ev.dbUpdateSwap],
        sfxBase ++ [Ev.s3UploadResult, Ev.dbCreateSwap, Ev.dbUpdateSwap],
        sfxBase ++ [Ev.s3UploadResult, Ev.dbCreateImage ImageType.RESULT,
          Ev.dbCreateSwap, Ev.dbUpdateSwap]],
      (swapPost db ai s3 userId o p now).trace = (performOutfitSwap ai).2 ++ sfx := by
  unfold swapPost
  cases userId with
  | none => exact Or.inl rfl
  | some uid =>
    cases o with
    | none => exact Or.inl rfl
    | some outfit =>
      cases p with
      | none => exact Or.inl rfl
      | some person =>
        dsimp only
        by_cases ht : ¬ (outfit.type ∈ routeAllowedTypes) ∨ ¬ (person.type ∈ routeAllowedTypes)
        · rw [if_pos ht]
          exact Or.inl rfl
        · rw [if_neg ht]
          by_cases hs : outfit.size > MAX_FILE_SIZE ∨ person.size > MAX_FILE_SIZE
          · rw [if_pos hs]
            exact Or.inl rfl
          · rw [if_neg hs]
            by_cases hsucc : (performOutfitSwap ai).1.success = false
            · rw [if_pos hsucc]
              exact Or.inr ⟨[], by simp, by simp⟩
            · rw [if_neg hsucc]
              cases hc : s3.configError with
              | some cfgErr => exact Or.inr ⟨[], by simp, by simp⟩
              | none =>
                cases hp : uploadFileToS3 person s3.personPut with
                | error e =>
                  exact Or.inr ⟨[Ev.dbUpsertUser, Ev.s3UploadPerson], by simp, by simp⟩
                | ok personUrl =>
                  cases ho : uploadFileToS3 outfit s3.outfitPut with
                  | error e =>
                    exact Or.inr ⟨[Ev.dbUpsertUser, Ev.s3UploadPerson, Ev.s3UploadOutfit],
                      by simp, by simp⟩
                  | ok outfitUrl =>
                    cases hu : (performOutfitSwap ai).1.generatedImageUrl with
                    | none =>
                      refine Or.inr ⟨sfxBase ++ [Ev.dbCreateSwap, Ev.dbUpdateSwap],
                        by simp, ?_⟩
                      simp [sfxBase, List.append_assoc]
                    | some genUrl =>
                      by_cases hge : genUrl = ""
                      · refine Or.inr ⟨sfxBase ++ [Ev.dbCreateSwap, Ev.dbUpdateSwap],
                          by simp, ?_⟩
                        simp [hge, sfxBase, List.append_assoc]
                      · cases hr : s3.resultPut with
                        | error e =>
                          refine Or.inr ⟨sfxBase ++
                            [Ev.s3UploadResult, Ev.dbCreateSwap, Ev.dbUpdateSwap],
                            by simp, ?_⟩
                          simp [hge, hr, sfxBase, List.append_assoc]
                        | ok resultUp =>
                          refine Or.inr ⟨sfxBase ++ [Ev.s3UploadResult,
                            Ev.dbCreateImage ImageType.RESULT, Ev.dbCreateSwap,
                            Ev.dbUpdateSwap], by simp, ?_⟩
                          simp [hge, hr, sfxBase, List.append_assoc]

/-- C2 counterexample: a fully successful swap request calls the AI first and
stores the source images only afterwards, so the claimed ordering (images
stored before any AI call) is false; the trace of the run makes the actual
order explicit. -/
theorem C2_counterexample :
    (swapPost {} cAiOk cS3AllOk (some "user_1") (some cOutfitFile)
      (some cPersonFile) 7).trace =
      [Ev.aiDescribe, Ev.aiGenerate, Ev.dbUpsertUser, Ev.s3UploadPerson,
       Ev.s3UploadOutfit, Ev.dbCreateImage ImageType.USER,
       Ev.dbCreateImage ImageType.OUTFIT, Ev.s3UploadResult,
       Ev.dbCreateImage ImageType.RESULT, Ev.dbCreateSwap, Ev.dbUpdateSwap] ∧
    claimC2Holds (swapPost {} cAiOk cS3AllOk (some "user_1") (some cOutfitFile)
      (some cPersonFile) 7).trace = false ∧
    (swapPost {} cAiOk cS3AllOk (some "user_1") (some cOutfitFile)
      (some cPersonFile) 7).resp.success = true := by
  exact ⟨by decide, by decide, by decide⟩

/-- C2 amended: in every swap request the description call precedes the
generation call, both AI calls precede any storing of the source images, and
the source images are stored before the Swap row is created. -/
theorem C2_amended (db : DB) (ai : AIOracle) (s3 : S3Oracle) (userId : Option String)
    (o p : Option File) (now : Nat) :
    allBefore (fun e => e == Ev.aiDescribe) (fun e => e == Ev.aiGenerate)
      (swapPost db ai s3 userId o p now).trace = true ∧
    allBefore isAIEv isSourceStoreEv (swapPost db ai s3 userId o p now).trace = true ∧
    allBefore isSourceStoreEv (fun e => e == Ev.dbCreateSwap)
      (swapPost db ai s3 userId o p now).trace = true := by
  rcases swapPost_trace_shape db ai s3 userId o p now with h | ⟨sfx, hmem, h⟩
  · rw [h]
    exact ⟨rfl, rfl, rfl⟩
  · rcases performOutfitSwap_trace ai with ha | ha | ha <;>
      (rw [h, ha]
       fin_cases hmem <;> exact ⟨by decide, by decide, by decide⟩)

/-! ## C1: generation returning no image payload -/

/-- The no-image error message is never the empty string. -/
theorem noImageDataError_ne_empty (r : GenResponse) : ¬ (noImageDataError r = "") := by
  intro h
  have hlen := congrArg String.length h
  rw [noImageDataError] at hlen
  simp [String.length_append] at hlen
  exact absurd hlen.2 (by decide)

/-- C1 counterexample: a request that passes validation but whose generation
call returns no usable image payload ends with an empty swaps table — no Swap
row at all, let alone a FAILED one — and an empty images table; the endpoint
answers 500 carrying the captured error. -/
theorem C1_counterexample :
    (swapPost {} cAiNoImage cS3AllOk (some "user_1") (some cOutfitFile)
      (some cPersonFile) 5).db.swaps = [] ∧
    (swapPost {} cAiNoImage cS3AllOk (some "user_1") (some cOutfitFile)
      (some cPersonFile) 5).db.images = [] ∧
    (swapPost {} cAiNoImage cS3AllOk (some "user_1") (some cOutfitFile)
      (some cPersonFile) 5).resp.status = 500 ∧
    (swapPost {} cAiNoImage cS3AllOk (some "user_1") (some cOutfitFile)
      (some cPersonFile) 5).resp.error = some (noImageDataError cGenNoImage) := by
  exact ⟨by decide, by decide, by decide, by decide⟩

/-- C1 amended: when the generation call of a validated request answers without
any image payload, the route records nothing — the database is returned
unchanged, so no Swap row (FAILED or otherwise) and no result-Image row is
created — and the HTTP response is a 500 whose error field carries the
captured no-image-data error string. -/
theorem C1_amended (db : DB) (ai : AIOracle) (s3 : S3Oracle) (uid : String)
    (outfit person : File) (now : Nat) (d : String) (r : GenResponse)
    (htO : outfit.type ∈ routeAllowedTypes) (htP : person.type ∈ routeAllowedTypes)
    (hsO : outfit.size ≤ MAX_FILE_SIZE) (hsP : person.size ≤ MAX_FILE_SIZE)
    (hdesc : ai.describeOutfit = Except.ok d)
    (hgen : ai.generate = Except.ok r)
    (hni : findInlineData r.parts = none)
    (hnm : r.textDataMatch = none) :
    (swapPost db ai s3 (some uid) (some outfit) (some person) now).db = db ∧
    (swapPost db ai s3 (some uid) (some outfit) (some person) now).resp.status = 500 ∧
    (swapPost db ai s3 (some uid) (some outfit) (some person) now).resp.error =
      some (noImageDataError r) ∧
    (swapPost db ai s3 (some uid) (some outfit) (some person) now).resp.success = false := by
  have hperf : performOutfitSwap ai =
      ({ success := false, error := some (noImageDataError r) },
       [Ev.aiDescribe, Ev.aiGenerate]) := by
    unfold performOutfitSwap generateSwappedImage
    simp [hdesc, hgen, hni, hnm]
  unfold swapPost
  dsimp only
  rw [if_neg (by push_neg; exact ⟨htO, htP⟩)]
  rw [if_neg (by omega)]
  rw [hperf]
  simp [jsOrD, noImageDataError_ne_empty r]

/-- Witness for `C1_amended` on the concrete no-image fixtures. -/
theorem C1_amended_witness :
    (swapPost c3Db cAiNoImage cS3AllOk (some "user_1") (some cOutfitFile)
      (some cPersonFile) 6).db = c3Db ∧
    (swapPost c3Db cAiNoImage cS3AllOk (some "user_1") (some cOutfitFile)
      (some cPersonFile) 6).resp.status = 500 ∧
    (swapPost c3Db cAiNoImage cS3AllOk (some "user_1") (some cOutfitFile)
      (some cPersonFile) 6).resp.error = some (noImageDataError cGenNoImage) ∧
    (swapPost c3Db cAiNoImage cS3AllOk (some "user_1") (some cOutfitFile)
      (some cPersonFile) 6).resp.success = false :=
  C1_amended c3Db cAiNoImage cS3AllOk "user_1" cOutfitFile cPersonFile 6
    "a red jacket" cGenNoImage (by decide) (by decide) (by decide) (by decide)
    rfl rfl (by decide) rfl

/-! ## C10: result-upload failure still completes the swap -/

theorem upsert_swaps (db : DB) (id email : String) (name : Option String) (now : Nat) :
    (createOrUpdateUser db id email name now).2.swaps = db.swaps := by
  unfold createOrUpdateUser
  cases db.users.find? (fun u => u.id == id) <;> rfl

theorem upsert_images (db : DB) (id email : String) (name : Option String) (now : Nat) :
    (createOrUpdateUser db id email name now).2.images = db.images := by
  unfold createOrUpdateUser
  cases db.users.find? (fun u => u.id == id) <;> rfl

theorem upsert_nextId_le (db : DB) (id email : String) (name : Option String) (now : Nat) :
    db.nextId ≤ (createOrUpdateUser db id email name now).2.nextId := by
  unfold createOrUpdateUser
  cases db.users.find? (fun u => u.id == id) <;> simp

theorem map_id_of_eq {α : Type} (f : α → α) (l : List α) (h : ∀ a ∈ l, f a = a) :
    l.map f = l := by
  induction l with
  | nil => rfl
  | cons a l ih =>
    rw [List.map_cons, h a (List.mem_cons_self a l),
      ih (fun b hb => h b (List.mem_cons_of_mem a hb))]

/-- C10: when the AI generation succeeds but the S3 upload of the generated
artifact fails, the route still creates the Swap row with status COMPLETED
and no result-image reference, no RESULT Image row is added, and the response
is success with the raw base64 data URL as `generatedImageUrl`. The
freshness hypothesis says stored swap ids are below the id counter of the store,
which every insertion path maintains. -/
theorem C10_result_upload_failure_completes (db : DB) (ai : AIOracle) (s3 : S3Oracle)
    (uid pUrl oUrl err : String) (outfit person : File) (now : Nat) (g : String)
    (htO : outfit.type ∈ routeAllowedTypes) (htP : person.type ∈ routeAllowedTypes)
    (hsO : outfit.size ≤ MAX_FILE_SIZE) (hsP : person.size ≤ MAX_FILE_SIZE)
    (hsucc : (performOutfitSwap ai).1.success = true)
    (hurl : (performOutfitSwap ai).1.generatedImageUrl = some g)
    (hg : ¬ (g = ""))
    (hcfg : s3.configError = none)
    (hvp : (validateFile person).valid = true)
    (hvo : (validateFile outfit).valid = true)
    (hpp : s3.personPut = Except.ok pUrl)
    (hop : s3.outfitPut = Except.ok oUrl)
    (hrp : s3.resultPut = Except.error err)
    (hfresh : ∀ s ∈ db.swaps, s._id < db.nextId) :
    (swapPost db ai s3 (some uid) (some outfit) (some person) now).resp.success = true ∧
    (swapPost db ai s3 (some uid) (some outfit) (some person) now).resp.status = 200 ∧
    (swapPost db ai s3 (some uid) (some outfit) (some person) now).resp.resultImageId =
      none ∧
    (swapPost db ai s3 (some uid) (some outfit) (some person) now).resp.generatedImageUrl =
      some g ∧
    (∃ r : SwapRow,
      (swapPost db ai s3 (some uid) (some outfit) (some person) now).db.swaps =
        db.swaps ++ [r] ∧
      r.status = SwapStatus.COMPLETED ∧ r.resultImageId = none ∧ r.userId = uid ∧
      r.error = none ∧ r.processingCompletedAt = some now) ∧
    (swapPost db ai s3 (some uid) (some outfit) (some person) now).db.images.countP
        (fun i => i.type == ImageType.RESULT) =
      db.images.countP (fun i => i.type == ImageType.RESULT) := by
  have hup : uploadFileToS3 person s3.personPut = Except.ok pUrl := by
    unfold uploadFileToS3
    rw [hvp, hpp]
    simp
  have huo : uploadFileToS3 outfit s3.outfitPut = Except.ok oUrl := by
    unfold uploadFileToS3
    rw [hvo, hop]
    simp
  unfold swapPost
  dsimp only
  rw [if_neg (by push_neg; exact ⟨htO, htP⟩)]
  rw [if_neg (by omega)]
  rw [if_neg (by simp [hsucc])]
  rw [hcfg, hup, huo]
  dsimp only
  rw [hurl]
  dsimp only
  rw [if_neg hg]
  rw [hrp]
  dsimp only
  refine ⟨rfl, rfl, rfl, rfl, ?_, ?_⟩
  · have hNn := upsert_nextId_le db uid "" none now
    unfold updateSwapStatus createSwap createImage
    dsimp only
    rw [upsert_swaps]
    rw [List.map_append]
    rw [map_id_of_eq _ db.swaps (by
      intro s hs
      have hlt := hfresh s hs
      unfold patchSwapRow
      rw [if_neg (by dsimp only; omega)])]
    refine ⟨_, rfl, ?_, ?_, ?_, ?_, ?_⟩
    · simp [patchSwapRow]
    · simp [patchSwapRow]
    · simp [patchSwapRow]
    · simp [patchSwapRow]
    · simp [patchSwapRow]
  · unfold updateSwapStatus createSwap createImage
    dsimp only
    rw [upsert_images]
    simp [List.countP_append, List.countP_cons,
      show (ImageType.USER == ImageType.RESULT) = false from rfl,
      show (ImageType.OUTFIT == ImageType.RESULT) = false from rfl]

/-- The S3 oracle where only the upload of the generated artifact fails. -/
def cS3ResultFail : S3Oracle :=
  { personPut := Except.ok "https://b.s3.r.amazonaws.com/images/u1/1-p.jpg",
    outfitPut := Except.ok "https://b.s3.r.amazonaws.com/images/u1/1-o.png",
    resultPut := Except.error "put failed" }

/-- Witness for `C10_result_upload_failure_completes` on the concrete
fixtures. -/
theorem C10_result_upload_failure_completes_witness :
    (swapPost {} cAiOk cS3ResultFail (some "user_1") (some cOutfitFile)
      (some cPersonFile) 9).resp.success = true ∧
    (swapPost {} cAiOk cS3ResultFail (some "user_1") (some cOutfitFile)
      (some cPersonFile) 9).resp.status = 200 ∧
    (swapPost {} cAiOk cS3ResultFail (some "user_1") (some cOutfitFile)
      (some cPersonFile) 9).resp.resultImageId = none ∧
    (swapPost {} cAiOk cS3ResultFail (some "user_1") (some cOutfitFile)
      (some cPersonFile) 9).resp.generatedImageUrl =
      some "data:image/png;base64,QUJD" ∧
    (∃ r : SwapRow,
      (swapPost {} cAiOk cS3ResultFail (some "user_1") (some cOutfitFile)
        (some cPersonFile) 9).db.swaps = ({} : DB).swaps ++ [r] ∧
      r.status = SwapStatus.COMPLETED ∧ r.resultImageId = none ∧ r.userId = "user_1" ∧
      r.error = none ∧ r.processingCompletedAt = some 9) ∧
    (swapPost {} cAiOk cS3ResultFail (some "user_1") (some cOutfitFile)
      (some cPersonFile) 9).db.images.countP (fun i => i.type == ImageType.RESULT) =
      ({} : DB).images.countP (fun i => i.type == ImageType.RESULT) :=
  C10_result_upload_failure_completes {} cAiOk cS3ResultFail "user_1"
    "https://b.s3.r.amazonaws.com/images/u1/1-p.jpg"
    "https://b.s3.r.amazonaws.com/images/u1/1-o.png"
    "put failed" cOutfitFile cPersonFile 9 "data:image/png;base64,QUJD"
    (by decide) (by decide) (by decide) (by decide) rfl rfl (by decide) rfl
    (by decide) (by decide) rfl rfl rfl (by decide)

end Vesty
